import Mathlib

/-!
Shallow embedding of the croquet audio-sync demo's playback-synchronization
core (src/model.js `SyncedAudioModel`, src/conductor.js `AudioView` and
`SyncingAudioView`), together with proofs settling the frozen claims.

Conventions of the embedding:
* session times (`Date.now()` / `extrapolatedNow()` values) are integers in
  milliseconds (`ℤ`);
* media positions and durations are rationals in seconds (`ℚ`), standing in
  for JavaScript floats (the algorithms use only field operations, `Math.round`,
  comparisons, `Math.min` and `Math.abs`, all of which restrict to `ℚ`);
* JavaScript `null`/`undefined` fields become `Option`;
* side effects on the media element (seek / play / pause / setRate) become
  explicit action values returned next to the new state.
-/

namespace AudioSync

/-- JavaScript `Math.round` on finite values: round half toward positive
infinity, i.e. `⌊x + 1/2⌋`. -/
def jsRound (q : ℚ) : ℤ := ⌊q + 1/2⌋

/-- The replicated play-state triple carried by `set-play-state` /
`play-state-changed` (src/model.js `setPlayState`): `isPlaying`, the session
time `startOffset` (ms, meaningful while playing, else `null`), and the media
position `pausedTime` (s, meaningful while paused, else `null`). -/
structure PlayState where
  isPlaying : Bool
  startOffset : Option ℤ
  pausedTime : Option ℚ
deriving DecidableEq, Repr

/-- The state of `SyncedAudioModel` (src/model.js): the play-state fields plus
the current asset references (modelled by their names). -/
structure ModelState where
  isPlaying : Bool
  startOffset : Option ℤ
  pausedTime : Option ℚ
  audioAsset : Option String
  videoAsset : Option String
deriving DecidableEq, Repr

/-- Events published by the model (src/model.js `publish('model', ...)`). -/
inductive ModelEvent where
  | assetsEvt
  | playStateEvt (p : PlayState)
  | startOffsetEvt (v : ℤ)
deriving DecidableEq, Repr

/-- src/model.js `SyncedAudioModel.setAssets`: reset the play state and store
the new assets, announcing `assets-changed`. -/
def setAssets (m : ModelState) (audio video : String) : ModelState × List ModelEvent :=
  ({ m with isPlaying := false, startOffset := none, pausedTime := some 0,
            audioAsset := some audio, videoAsset := some video },
   [ModelEvent.assetsEvt])

/-- src/model.js `SyncedAudioModel.setPlayState`: replace the triple wholesale
and announce `play-state-changed` with it. `m` is unused beyond the replaced
fields, but is kept so the operation reads as a state transition. -/
def setPlayState (m : ModelState) (p : PlayState) : ModelState × List ModelEvent :=
  ({ m with isPlaying := p.isPlaying, startOffset := p.startOffset,
            pausedTime := p.pausedTime },
   [ModelEvent.playStateEvt p])

/-- src/model.js `SyncedAudioModel.setStartOffset`: ignored unless playing;
otherwise store the new `startOffset` and announce `start-offset-changed`. -/
def setStartOffset (m : ModelState) (v : ℤ) : ModelState × List ModelEvent :=
  if m.isPlaying then
    ({ m with startOffset := some v }, [ModelEvent.startOffsetEvt v])
  else (m, [])

/-- The result of the `while (t > duration) t -= duration` loop in
`AudioView.wrappedTime` (src/conductor.js line 611), in closed form: for
`t > d` subtract `d` exactly `⌈(t - d)/d⌉` times (the least number of
subtractions bringing the value to at most `d`). `wrapLoop_eq` below shows
this satisfies the loop's defining recurrence for positive `d`. -/
def wrapLoop (d t : ℚ) : ℚ :=
  if d < t then t - d * ⌈(t - d) / d⌉ else t

/-- src/conductor.js `AudioView.wrappedTime`: when the duration is known and
nonzero (JS truthiness of `this.duration`), wrap the time into the looping
media, and when `guarded`, clamp to at most `duration - 0.1` to keep seeks
away from end-of-media. -/
def wrappedTime (duration : Option ℚ) (t : ℚ) (guarded : Bool) : ℚ :=
  match duration with
  | none => t
  | some d =>
    if d = 0 then t
    else if guarded then min (d - 1/10) (wrapLoop d t) else wrapLoop d t

/-- Faithfulness of `wrapLoop`: for positive duration it satisfies the
defining equation of the source's `while` loop. -/
theorem wrapLoop_eq (d t : ℚ) (hd : 0 < d) :
    wrapLoop d t = if d < t then wrapLoop d (t - d) else t := by
  unfold wrapLoop
  rcases lt_or_le d t with h | h
  · rw [if_pos h, if_pos h]
    rcases lt_or_le d (t - d) with h2 | h2
    · rw [if_pos h2]
      have harg : (t - d) / d = (t - d - d) / d + 1 := by
        field_simp
      rw [harg, Int.ceil_add_one]
      push_cast
      ring
    · rw [if_neg (not_lt.mpr h2)]
      have h1 : (t - d) / d ≤ 1 := by
        rw [div_le_one hd]
        linarith
      have h0 : 0 < (t - d) / d := by
        apply div_pos _ hd
        linarith
      have hceil : ⌈(t - d) / d⌉ = 1 := by
        have hle : ⌈(t - d) / d⌉ ≤ 1 := by
          exact_mod_cast Int.ceil_le.mpr (by exact_mod_cast h1)
        have hgt : 0 < ⌈(t - d) / d⌉ := Int.ceil_pos.mpr h0
        omega
      rw [hceil]
      push_cast
      ring
  · rw [if_neg (not_lt.mpr h), if_neg (not_lt.mpr h)]

/-- The per-follower drift bookkeeping of `SyncingAudioView`
(src/conductor.js): `this.smoothedDiff` (ms, `null` when no history),
`this.lastJump` and `this.lastRateAdjust` (session ms, absent until set /
after `delete`), and `this.playbackBoost` (percent). -/
structure CorrState where
  smoothedDiff : Option ℤ
  lastJump : Option ℤ
  lastRateAdjust : Option ℤ
  playbackBoost : ℤ
deriving DecidableEq, Repr

/-- Commands issued to the media element by the follower. `play t` carries
the requested start position (the element then seeks to
`wrappedTime t true`); `pause` carries the optional freeze position. -/
inductive AVAction where
  | play (t : ℚ)
  | pause (t : Option ℚ)
  | setRate (r : ℚ)
deriving DecidableEq, Repr

/-- Number of `play`/`pause` calls in a command list. -/
def countPlayPause : List AVAction → Nat
  | [] => 0
  | AVAction.play _ :: rest => countPlayPause rest + 1
  | AVAction.pause _ :: rest => countPlayPause rest + 1
  | AVAction.setRate _ :: rest => countPlayPause rest

/-- The state of a follower `SyncingAudioView` relevant to the claims:
the last applied play-state triple, the drift bookkeeping, whether an audio
element is loaded (`this.audioView !== null`), and `this.waitingForSync`. -/
structure FollowerState where
  latestPlayState : Option PlayState
  corr : CorrState
  hasAudioView : Bool
  waitingForSync : Bool
deriving DecidableEq, Repr

/-- src/conductor.js `SyncingAudioView.calculateAudioTime`:
`(extrapolatedNow() - startOffset) / 1000`, seconds. A `null` startOffset
coerces to 0 in the JS subtraction. -/
def calculateAudioTime (now : ℤ) (startOffset : Option ℤ) : ℚ :=
  ((now - startOffset.getD 0 : ℤ) : ℚ) / 1000

/-- src/conductor.js `SyncingAudioView.applyPlayState`. Ignored while no
audio element is loaded or while waiting for sync. Otherwise, when paused,
pause the element at `pausedTime`; when playing, delete `lastJump`, reset
`smoothedDiff`, set the playback rate from the (retained) `playbackBoost`,
set `lastRateAdjust` to the current time, and start playback at
`calculateAudioTime() + 0.1` (the `randomizeStart` test flag is `false` in
the source, so `randomOffset = 0`). -/
def applyPlayState (now : ℤ) (st : FollowerState) : FollowerState × List AVAction :=
  if st.hasAudioView = false ∨ st.waitingForSync = true then (st, [])
  else
    match st.latestPlayState with
    | none => (st, [])
    | some p =>
      if p.isPlaying = false then
        (st, [AVAction.pause p.pausedTime])
      else
        ({ st with corr := { smoothedDiff := none, lastJump := none,
                             lastRateAdjust := some now,
                             playbackBoost := st.corr.playbackBoost } },
         [AVAction.setRate (1 + (st.corr.playbackBoost : ℚ) / 100),
          AVAction.play (calculateAudioTime now p.startOffset + 1/10)])

/-- src/conductor.js `SyncingAudioView.playStateChanged`: ignore a payload
field-for-field identical to the last applied one, else record it and apply
the full state from scratch. -/
def playStateChanged (now : ℤ) (st : FollowerState) (p : PlayState) :
    FollowerState × List AVAction :=
  if st.latestPlayState = some p then (st, [])
  else applyPlayState now { st with latestPlayState := some p }

/-- src/conductor.js `SyncingAudioView.assetsChanged`, modelling the
successful, uncancelled load path: snapshot the model's play state into
`latestPlayState`, record sync status, install the fresh audio element,
reset `playbackBoost` to 0, and apply the play state. -/
def assetsChanged (m : ModelState) (synced : Bool) (now : ℤ) (st : FollowerState) :
    FollowerState × List AVAction :=
  applyPlayState now
    { st with waitingForSync := !synced,
              latestPlayState := some { isPlaying := m.isPlaying,
                                        startOffset := m.startOffset,
                                        pausedTime := m.pausedTime },
              hasAudioView := true,
              corr := { st.corr with playbackBoost := 0 } }

/-- The exponential-smoothing update in `checkPlaybackTiming`
(src/conductor.js lines 814-819): the first sample is `Math.round(diffMs)`;
later samples are `Math.round(0.3 * diffMs + (1 - 0.3) * previous)`. -/
def smoothedDiffStep (prev : Option ℤ) (diffMs : ℚ) : ℤ :=
  match prev with
  | none => jsRound diffMs
  | some s => jsRound (3/10 * diffMs + (1 - 3/10) * (s : ℚ))

/-- The media-element effects of one `checkPlaybackTiming` pass: the hard
seek position if a jump happened, the new playback rate if one was applied,
and whether a jump happened. -/
structure CheckActions where
  seek : Option ℚ
  rate : Option ℚ
  jumped : Bool
deriving DecidableEq, Repr

/-- src/conductor.js `SyncingAudioView.checkPlaybackTiming`, lines 793-889,
restricted to the playing-and-not-blocked case (its enclosing guard).
Inputs: the known duration `d`, the wall clock `now = Date.now()` (ms), the
already-wrapped expected position and the element's current position
(seconds), and the drift bookkeeping. Produces the updated bookkeeping and
the element commands. The trailing end-of-loop check (line 882) deletes
`lastJump` when within 1.5 s of the duration, after everything else. -/
def checkPlaybackTiming (d : ℚ) (now : ℤ) (expectedTime audioTime : ℚ)
    (st : CorrState) : CorrState × CheckActions :=
  let audioDiff := audioTime - expectedTime
  let main :=
    if |audioDiff| < d / 2 then
      let audioDiffMS := audioDiff * 1000
      let sm := smoothedDiffStep st.smoothedDiff audioDiffMS
      if 500 < |sm| ∧ 10000 < now - st.lastJump.getD 0 then
        ({ smoothedDiff := none, lastJump := some now,
           lastRateAdjust := st.lastRateAdjust,
           playbackBoost := st.playbackBoost },
         { seek := some (wrappedTime (some d) (audioTime - (sm : ℚ) / 1000 + 1/5) true),
           rate := none, jumped := true })
      else if 3000 ≤ now - st.lastRateAdjust.getD 0 then
        let diffAbs := |sm|
        let diffSign := Int.sign sm
        let desired := -diffSign *
          (if 300 < diffAbs then 5 else if 150 < diffAbs then 3
           else if 50 < diffAbs then 1 else 0)
        if desired ≠ st.playbackBoost then
          if desired = 0 ∧ Int.sign st.playbackBoost = -diffSign ∧ 25 ≤ diffAbs then
            ({ st with smoothedDiff := some sm, lastRateAdjust := some now },
             { seek := none, rate := none, jumped := false })
          else
            ({ st with smoothedDiff := some sm, lastRateAdjust := some now,
                       playbackBoost := desired },
             { seek := none, rate := some (1 + (desired : ℚ) / 100), jumped := false })
        else
          ({ st with smoothedDiff := some sm, lastRateAdjust := some now },
           { seek := none, rate := none, jumped := false })
      else
        ({ st with smoothedDiff := some sm },
         { seek := none, rate := none, jumped := false })
    else (st, { seek := none, rate := none, jumped := false })
  if d - audioTime < 3/2 then ({ main.1 with lastJump := none }, main.2) else main

/-- Claim C9: every guarded seek position is clamped away from end-of-media:
for every position `p` and every known positive duration `d`,
`wrappedTime (some d) p true ≤ d - 0.1`. `play`, `setStatic` (used by
`pause`) and the jump correction all pass their target through
`wrappedTime _ _ true`, so none of them sets the device position within
0.1 s of the duration. -/
theorem C9_guarded_seek_clamped (d p : ℚ) (hd : 0 < d) :
    wrappedTime (some d) p true ≤ d - 1/10 := by
  simp only [wrappedTime]
  rw [if_neg (ne_of_gt hd)]
  simp only [if_pos]
  exact min_le_left _ _

/-- Concrete instance of `C9_guarded_seek_clamped`. -/
theorem C9_witness : (0 : ℚ) < 2 ∧ wrappedTime (some 2) 5 true ≤ 2 - 1/10 :=
  ⟨by norm_num, C9_guarded_seek_clamped 2 5 (by norm_num)⟩

/-- Claim C10: `wrappedTime` wraps only values above the duration and never
clamps from below: for every position `p` (negative values included) with
`p ≤ d - 0.1`, guarded or not, it returns `p` unchanged; consequently a
follower whose session clock is behind `startOffset` by more than the fixed
lead seeks the device to a negative position. -/
theorem C10_no_clamp_below (d p : ℚ) (g : Bool) (hd : 0 < d) (hp : p ≤ d - 1/10) :
    wrappedTime (some d) p g = p := by
  have hpd : ¬ d < p := not_lt.mpr (by linarith)
  have hwrap : wrapLoop d p = p := by
    unfold wrapLoop
    rw [if_neg hpd]
  simp only [wrappedTime]
  rw [if_neg (ne_of_gt hd)]
  cases g
  · simpa using hwrap
  · simp only [if_pos]
    rw [hwrap]
    exact min_eq_right hp

/-- Concrete instance of `C10_no_clamp_below` at a negative position. -/
theorem C10_witness :
    (0 : ℚ) < 2 ∧ (-5 : ℚ) ≤ 2 - 1/10 ∧ wrappedTime (some 2) (-5) true = -5 :=
  ⟨by norm_num, by norm_num, C10_no_clamp_below 2 (-5) true (by norm_num) (by norm_num)⟩

/-- Rounding a damped error toward the target cannot increase its distance
to the target: for every rational error `e`, `|round(0.3 e) - e| ≤ |e|`
where `round x = ⌊x + 1/2⌋`. This is the contraction step behind the
smoothing recurrence. -/
theorem jsRound_damped_contraction (e : ℚ) :
    |((jsRound (3/10 * e) : ℤ) : ℚ) - e| ≤ |e| := by
  unfold jsRound
  have h1 : ((⌊3/10 * e + 1/2⌋ : ℤ) : ℚ) ≤ 3/10 * e + 1/2 := Int.floor_le _
  have h2 : 3/10 * e + 1/2 - 1 < ((⌊3/10 * e + 1/2⌋ : ℤ) : ℚ) := Int.sub_one_lt_floor _
  set k : ℤ := ⌊3/10 * e + 1/2⌋ with hk
  rw [abs_le]
  rcases le_or_lt 0 e with he | he
  · rw [abs_of_nonneg he]
    constructor
    · have hk0 : 0 ≤ k := by
        rw [hk]
        exact Int.floor_nonneg.mpr (by linarith)
      have hq : (0 : ℚ) ≤ (k : ℚ) := by exact_mod_cast hk0
      linarith
    · rcases le_or_lt ((k : ℚ)) 0 with h0 | h0
      · linarith
      · have hk1 : (1 : ℤ) ≤ k := by
          have : (0 : ℤ) < k := by exact_mod_cast h0
          omega
        have h1q : (1 : ℚ) ≤ (k : ℚ) := by exact_mod_cast hk1
        have he53 : 5/3 ≤ e := by linarith
        linarith
  · rw [abs_of_neg he]
    constructor
    · rcases le_or_lt (0 : ℚ) ((k : ℚ)) with h0 | h0
      · linarith
      · have hkneg : k ≤ -1 := by
          have : k < 0 := by exact_mod_cast h0
          omega
        have hx : 3/10 * e + 1/2 < 0 := by
          by_contra hx
          push_neg at hx
          have := Int.floor_nonneg.mpr hx
          omega
        linarith
    · have hq1 : (k : ℚ) < 1 := by linarith
      have hk0 : k ≤ 0 := by
        have : k < 1 := by exact_mod_cast hq1
        omega
      have : (k : ℚ) ≤ 0 := by exact_mod_cast hk0
      linarith

/-- Claim C3 is false as stated: the code rounds every smoothed value to an
integer (`Math.round`, src/conductor.js lines 814 and 818), so the first
sample does not set `smoothed = diffMs` when `diffMs` is fractional: for
`diffMs = 0.4` the stored value is `0`, not `0.4`. -/
theorem C3_counterexample :
    smoothedDiffStep none (2/5) = 0 ∧
    ((smoothedDiffStep none (2/5) : ℤ) : ℚ) ≠ 2/5 := by
  constructor
  · norm_num [smoothedDiffStep, jsRound]
  · norm_num [smoothedDiffStep, jsRound]

/-- Claim C3 (amended): the smoothing sets `smoothed = round(diffMs)` on the
first sample and `smoothed = round(0.3*diffMs + 0.7*smoothed_prev)` on every
later sample, `round` being JavaScript `Math.round`; consequently, for a
constant input `diffMs = d` the distance from the smoothed value to `d`
never increases from one sample to the next (monotone approach toward `d`
from any starting value). -/
theorem C3_smoothing_rounds_and_contracts (dMs : ℚ) (s : ℤ) :
    smoothedDiffStep none dMs = jsRound dMs ∧
    smoothedDiffStep (some s) dMs = jsRound (3/10 * dMs + 7/10 * (s : ℚ)) ∧
    |((smoothedDiffStep (some s) dMs : ℤ) : ℚ) - dMs| ≤ |(s : ℚ) - dMs| := by
  refine ⟨rfl, by norm_num [smoothedDiffStep], ?_⟩
  have key : smoothedDiffStep (some s) dMs = s + jsRound (3/10 * (dMs - (s : ℚ))) := by
    show jsRound (3/10 * dMs + (1 - 3/10) * (s : ℚ)) = s + jsRound (3/10 * (dMs - (s : ℚ)))
    unfold jsRound
    rw [show 3/10 * dMs + (1 - 3/10) * (s : ℚ) + 1/2
          = (s : ℚ) + (3/10 * (dMs - (s : ℚ)) + 1/2) by ring]
    exact Int.floor_int_add s _
  rw [key]
  have hcon := jsRound_damped_contraction (dMs - (s : ℚ))
  set j : ℤ := jsRound (3/10 * (dMs - (s : ℚ))) with hj
  have habs : |(s : ℚ) - dMs| = |dMs - (s : ℚ)| := abs_sub_comm _ _
  rw [habs]
  have harg : ((s + j : ℤ) : ℚ) - dMs = ((j : ℤ) : ℚ) - (dMs - (s : ℚ)) := by
    push_cast
    ring
  rw [harg]
  exact hcon

/-- Claim C4: a sample with `|actual - expected| ≥ duration/2` is discarded
(src/conductor.js line 812 processes only `< duration/2`): the smoothed
drift, the boost and the rate-adjust record are untouched, and no seek, no
rate change and no jump happen on that pass. -/
theorem C4_loop_boundary_discard (d : ℚ) (now : ℤ) (expectedTime audioTime : ℚ)
    (st : CorrState) (h : d / 2 ≤ |audioTime - expectedTime|) :
    (checkPlaybackTiming d now expectedTime audioTime st).1.smoothedDiff = st.smoothedDiff ∧
    (checkPlaybackTiming d now expectedTime audioTime st).1.playbackBoost = st.playbackBoost ∧
    (checkPlaybackTiming d now expectedTime audioTime st).1.lastRateAdjust = st.lastRateAdjust ∧
    (checkPlaybackTiming d now expectedTime audioTime st).2 =
      { seek := none, rate := none, jumped := false } := by
  simp only [checkPlaybackTiming]
  rw [if_neg (not_lt.mpr h)]
  split_ifs <;> simp

/-- Concrete instance of `C4_loop_boundary_discard`. -/
theorem C4_witness :
    (10 : ℚ) / 2 ≤ |(6 : ℚ) - 0| ∧
    (checkPlaybackTiming 10 7 0 6 ⟨some 1, some 2, some 3, 4⟩).1.smoothedDiff = some 1 ∧
    (checkPlaybackTiming 10 7 0 6 ⟨some 1, some 2, some 3, 4⟩).2 =
      { seek := none, rate := none, jumped := false } :=
  ⟨by norm_num,
   (C4_loop_boundary_discard 10 7 0 6 ⟨some 1, some 2, some 3, 4⟩ (by norm_num)).1,
   (C4_loop_boundary_discard 10 7 0 6 ⟨some 1, some 2, some 3, 4⟩ (by norm_num)).2.2.2⟩

/-- On a processed sample, a jump happens exactly when the freshly smoothed
drift magnitude exceeds 500 and strictly more than 10000 ms have passed
since the recorded `lastJump` (0 when absent). -/
theorem checkPT_jumped_iff (d : ℚ) (now : ℤ) (expectedTime audioTime : ℚ)
    (st : CorrState) (h : |audioTime - expectedTime| < d / 2) :
    (checkPlaybackTiming d now expectedTime audioTime st).2.jumped = true ↔
      (500 < |smoothedDiffStep st.smoothedDiff ((audioTime - expectedTime) * 1000)| ∧
       10000 < now - st.lastJump.getD 0) := by
  simp only [checkPlaybackTiming]
  rw [if_pos h]
  set sm := smoothedDiffStep st.smoothedDiff ((audioTime - expectedTime) * 1000) with hsm
  by_cases hj : 500 < |sm| ∧ 10000 < now - st.lastJump.getD 0
  · rw [if_pos hj]
    split_ifs <;> simp [hj]
  · rw [if_neg hj]
    split_ifs <;> simp [hj]

/-- On a processed sample satisfying the jump conditions, away from the
end-of-loop window, `checkPlaybackTiming` performs exactly the jump of
src/conductor.js lines 827-833. -/
theorem checkPT_jump_eq (d : ℚ) (now : ℤ) (expectedTime audioTime : ℚ)
    (st : CorrState) (h : |audioTime - expectedTime| < d / 2)
    (hj : 500 < |smoothedDiffStep st.smoothedDiff ((audioTime - expectedTime) * 1000)| ∧
          10000 < now - st.lastJump.getD 0)
    (hend : 3/2 ≤ d - audioTime) :
    checkPlaybackTiming d now expectedTime audioTime st =
      ({ smoothedDiff := none, lastJump := some now,
         lastRateAdjust := st.lastRateAdjust, playbackBoost := st.playbackBoost },
       { seek := some (wrappedTime (some d)
           (audioTime -
             (smoothedDiffStep st.smoothedDiff ((audioTime - expectedTime) * 1000) : ℚ)
               / 1000 + 1/5) true),
         rate := none, jumped := true }) := by
  simp only [checkPlaybackTiming]
  rw [if_pos h, if_pos hj, if_neg (not_lt.mpr hend)]

/-- Claim C2 is false as stated at the 10 s boundary: with exactly 10 s
elapsed since the last jump (`now - lastJump = 10000`, i.e. "at least 10 s")
and a smoothed drift of 600 ms (> 500 ms), the code does not jump, because
src/conductor.js line 827 requires strictly more than 10000 ms. -/
theorem C2_counterexample :
    (10000 : ℤ) - ((some (0 : ℤ)).getD 0) ≥ 10000 ∧
    500 < |smoothedDiffStep none ((53/5 - 10) * 1000)| ∧
    (checkPlaybackTiming 100 10000 10 (53/5) ⟨none, some 0, some 0, 0⟩).2.jumped = false ∧
    (checkPlaybackTiming 100 10000 10 (53/5) ⟨none, some 0, some 0, 0⟩).1.lastJump = some 0 := by
  refine ⟨by norm_num, by norm_num [smoothedDiffStep, jsRound], ?_, ?_⟩
  · norm_num [checkPlaybackTiming, smoothedDiffStep, jsRound, abs_of_nonneg, abs_of_nonpos]
  · norm_num [checkPlaybackTiming, smoothedDiffStep, jsRound, abs_of_nonneg, abs_of_nonpos]

/-- Claim C2 (amended): on a processed sample away from the end-of-loop
window, a hard seek is performed exactly when the smoothed drift magnitude
exceeds 500 ms and strictly more than 10 s have elapsed since the last jump
(time measured from 0 when no jump is recorded); the jump seeks to the
end-guarded wrap of `actual - smoothed/1000 + 0.2` s, resets the smoothed
drift to `null` and records the jump time — so a second drift sample
exceeding 500 ms arriving at most 10 s later produces no second jump. -/
theorem C2_jump_gating (d : ℚ) (now : ℤ) (expectedTime audioTime : ℚ)
    (st : CorrState)
    (hproc : |audioTime - expectedTime| < d / 2)
    (hend : 3/2 ≤ d - audioTime) :
    ((checkPlaybackTiming d now expectedTime audioTime st).2.jumped = true ↔
      500 < |smoothedDiffStep st.smoothedDiff ((audioTime - expectedTime) * 1000)| ∧
      10000 < now - st.lastJump.getD 0) ∧
    (500 < |smoothedDiffStep st.smoothedDiff ((audioTime - expectedTime) * 1000)| →
     10000 < now - st.lastJump.getD 0 →
      (checkPlaybackTiming d now expectedTime audioTime st).1.smoothedDiff = none ∧
      (checkPlaybackTiming d now expectedTime audioTime st).1.lastJump = some now ∧
      (checkPlaybackTiming d now expectedTime audioTime st).2.seek =
        some (wrappedTime (some d)
          (audioTime -
            (smoothedDiffStep st.smoothedDiff ((audioTime - expectedTime) * 1000) : ℚ)
              / 1000 + 1/5) true) ∧
      ∀ (now2 : ℤ) (expectedTime2 audioTime2 : ℚ),
        |audioTime2 - expectedTime2| < d / 2 →
        now2 - now ≤ 10000 →
        (checkPlaybackTiming d now2 expectedTime2 audioTime2
           (checkPlaybackTiming d now expectedTime audioTime st).1).2.jumped = false) := by
  refine ⟨checkPT_jumped_iff d now expectedTime audioTime st hproc, ?_⟩
  intro h500 h10
  have heq := checkPT_jump_eq d now expectedTime audioTime st hproc ⟨h500, h10⟩ hend
  rw [heq]
  refine ⟨rfl, rfl, rfl, ?_⟩
  intro now2 expectedTime2 audioTime2 hproc2 hgap
  have hiff := checkPT_jumped_iff d now2 expectedTime2 audioTime2
    { smoothedDiff := none, lastJump := some now,
      lastRateAdjust := st.lastRateAdjust, playbackBoost := st.playbackBoost } hproc2
  cases hjp : (checkPlaybackTiming d now2 expectedTime2 audioTime2
      { smoothedDiff := none, lastJump := some now,
        lastRateAdjust := st.lastRateAdjust, playbackBoost := st.playbackBoost }).2.jumped
  · rfl
  · have hc := hiff.mp hjp
    simp only [Option.getD_some] at hc
    omega

/-- Concrete instance of `C2_jump_gating`: a 600 ms smoothed drift with the
cooldown expired jumps and records the jump time; a second over-500 ms
sample 5 s later does not jump. -/
theorem C2_witness :
    (checkPlaybackTiming 100 20000 10 (53/5) ⟨none, some 0, some 0, 0⟩).1.lastJump
        = some 20000 ∧
    (checkPlaybackTiming 100 25000 49 (110/2)
        (checkPlaybackTiming 100 20000 10 (53/5) ⟨none, some 0, some 0, 0⟩).1).2.jumped
        = false := by
  have h := C2_jump_gating 100 20000 10 (53/5) ⟨none, some 0, some 0, 0⟩
    (by norm_num [abs_of_nonneg]) (by norm_num)
  have h2 := h.2 (by norm_num [smoothedDiffStep, jsRound]) (by norm_num)
  exact ⟨h2.2.1, h2.2.2.2 25000 49 (110/2) (by norm_num [abs_of_nonneg]) (by norm_num)⟩

/-- Claim C1: on a processed sample with no jump this cycle and at least 3 s
since the last rate adjustment, the boost is classified from the smoothed
drift magnitude into the bands `{>300:5, >150:3, >50:1, else:0}` percent,
signed opposite to the drift sign, except that a desired drop to 0 is
blocked while the previous boost's sign opposes the drift sign and the
magnitude is at least 25 ms; in particular with prior boost `+1` and a
smoothed drift of `-30` ms the boost stays `+1`, while at `-20` ms it drops
to `0`. -/
theorem C1_rate_boost_hysteresis (d : ℚ) (now : ℤ) (expectedTime audioTime : ℚ)
    (st : CorrState)
    (hproc : |audioTime - expectedTime| < d / 2)
    (hnojump : ¬(500 < |smoothedDiffStep st.smoothedDiff ((audioTime - expectedTime) * 1000)| ∧
                 10000 < now - st.lastJump.getD 0))
    (hdue : 3000 ≤ now - st.lastRateAdjust.getD 0) :
    ((checkPlaybackTiming d now expectedTime audioTime st).1.playbackBoost =
      (let sm := smoothedDiffStep st.smoothedDiff ((audioTime - expectedTime) * 1000)
       let desired := -(Int.sign sm) *
         (if 300 < |sm| then 5 else if 150 < |sm| then 3 else if 50 < |sm| then 1 else 0)
       if desired = st.playbackBoost then st.playbackBoost
       else if desired = 0 ∧ Int.sign st.playbackBoost = -(Int.sign sm) ∧ 25 ≤ |sm|
       then st.playbackBoost
       else desired)) ∧
    (checkPlaybackTiming 100 5000 10 (997/100) ⟨none, none, none, 1⟩).1.playbackBoost = 1 ∧
    (checkPlaybackTiming 100 5000 10 (998/100) ⟨none, none, none, 1⟩).1.playbackBoost = 0 := by
  refine ⟨?_, ?_, ?_⟩
  · simp only [checkPlaybackTiming]
    rw [if_pos hproc, if_neg hnojump, if_pos hdue]
    set sm := smoothedDiffStep st.smoothedDiff ((audioTime - expectedTime) * 1000) with hsm
    set desired := -(Int.sign sm) *
      (if 300 < |sm| then 5 else if 150 < |sm| then 3 else if 50 < |sm| then 1 else 0)
      with hdes
    by_cases h1 : desired = st.playbackBoost
    · rw [if_pos h1]
      have h1n : ¬ desired ≠ st.playbackBoost := by simpa using h1
      rw [if_neg h1n]
      split_ifs <;> simp
    · rw [if_neg h1]
      rw [if_pos h1]
      by_cases h2 : desired = 0 ∧ Int.sign st.playbackBoost = -(Int.sign sm) ∧ 25 ≤ |sm|
      · rw [if_pos h2, if_pos h2]
        split_ifs <;> simp
      · rw [if_neg h2, if_neg h2]
        split_ifs <;> simp
  · norm_num [checkPlaybackTiming, smoothedDiffStep, jsRound, abs_of_nonneg, abs_of_nonpos]
    decide
  · norm_num [checkPlaybackTiming, smoothedDiffStep, jsRound, abs_of_nonneg, abs_of_nonpos]

/-- Concrete instance of `C1_rate_boost_hysteresis`: the two hysteresis
scenarios of the claim. -/
theorem C1_witness :
    (checkPlaybackTiming 100 5000 10 (997/100) ⟨none, none, none, 1⟩).1.playbackBoost = 1 ∧
    (checkPlaybackTiming 100 5000 10 (998/100) ⟨none, none, none, 1⟩).1.playbackBoost = 0 :=
  ⟨(C1_rate_boost_hysteresis 100 5000 10 (997/100) ⟨none, none, none, 1⟩
      (by norm_num [abs_of_nonpos])
      (by norm_num [smoothedDiffStep, jsRound]) (by norm_num)).2.1,
   (C1_rate_boost_hysteresis 100 5000 10 (998/100) ⟨none, none, none, 1⟩
      (by norm_num [abs_of_nonpos])
      (by norm_num [smoothedDiffStep, jsRound]) (by norm_num)).2.2⟩

/-- A payload equal to the recorded `latestPlayState` is dropped by the
leading equality check of `playStateChanged` (src/conductor.js line 727). -/
theorem playStateChanged_drops_duplicate (now : ℤ) (st : FollowerState) (p : PlayState)
    (h : st.latestPlayState = some p) : playStateChanged now st p = (st, []) := by
  simp [playStateChanged, h]

/-- Claim C5: a `play-state-changed` payload field-for-field identical to
the currently-applied triple is ignored (state unchanged, no media command);
hence applying the same payload twice in a row, on a loaded and synced
follower, issues exactly one `play()`/`pause()` call in total. -/
theorem C5_playState_idempotent (now : ℤ) (st : FollowerState) (p : PlayState) :
    (st.latestPlayState = some p → playStateChanged now st p = (st, [])) ∧
    (st.hasAudioView = true → st.waitingForSync = false →
      playStateChanged now (playStateChanged now st p).1 p =
        ((playStateChanged now st p).1, []) ∧
      countPlayPause (playStateChanged now st p).2 +
        countPlayPause (playStateChanged now (playStateChanged now st p).1 p).2 =
        countPlayPause (playStateChanged now st p).2 ∧
      (st.latestPlayState ≠ some p → countPlayPause (playStateChanged now st p).2 = 1)) := by
  constructor
  · intro h
    exact playStateChanged_drops_duplicate now st p h
  · intro hav hws
    by_cases heq : st.latestPlayState = some p
    · have h1 := playStateChanged_drops_duplicate now st p heq
      exact ⟨by simp [h1], by simp [h1, countPlayPause], fun hne => absurd heq hne⟩
    · have happ : (playStateChanged now st p).1.latestPlayState = some p := by
        simp only [playStateChanged, if_neg heq, applyPlayState, hav, hws]
        cases hp : p.isPlaying <;> simp
      have hsecond : playStateChanged now (playStateChanged now st p).1 p =
          ((playStateChanged now st p).1, []) :=
        playStateChanged_drops_duplicate now _ p happ
      refine ⟨hsecond, by rw [hsecond]; simp [countPlayPause], ?_⟩
      intro _
      simp only [playStateChanged, if_neg heq, applyPlayState, hav, hws]
      cases hp : p.isPlaying <;> simp [countPlayPause]

/-- Concrete instance of `C5_playState_idempotent`: a first delivery causes
one `play()`, the identical second delivery is ignored. -/
theorem C5_witness :
    countPlayPause (playStateChanged 7 ⟨none, ⟨none, none, none, 0⟩, true, false⟩
        ⟨true, some 3, none⟩).2 = 1 ∧
    playStateChanged 7 (playStateChanged 7 ⟨none, ⟨none, none, none, 0⟩, true, false⟩
        ⟨true, some 3, none⟩).1 ⟨true, some 3, none⟩ =
      ((playStateChanged 7 ⟨none, ⟨none, none, none, 0⟩, true, false⟩
        ⟨true, some 3, none⟩).1, []) :=
  ⟨((C5_playState_idempotent 7 ⟨none, ⟨none, none, none, 0⟩, true, false⟩
      ⟨true, some 3, none⟩).2 rfl rfl).2.2 (by simp),
   ((C5_playState_idempotent 7 ⟨none, ⟨none, none, none, 0⟩, true, false⟩
      ⟨true, some 3, none⟩).2 rfl rfl).1⟩

/-- Claim C6 is false as stated: entering the Paused state clears nothing.
Applying a paused play-state on a loaded, synced follower whose bookkeeping
holds `smoothedDiff = 100 ms`, `lastJump`, `lastRateAdjust` and boost `3`
leaves all four untouched (the paused branch of `applyPlayState`,
src/conductor.js lines 746-749, only pauses the element). -/
theorem C6_counterexample :
    (applyPlayState 999
        ⟨some ⟨false, none, some 3⟩, ⟨some 100, some 5, some 7, 3⟩, true, false⟩).1.corr =
      ⟨some 100, some 5, some 7, 3⟩ ∧
    (applyPlayState 999
        ⟨some ⟨false, none, some 3⟩, ⟨some 100, some 5, some 7, 3⟩, true, false⟩).1.corr.smoothedDiff
      ≠ none := by
  constructor
  · norm_num [applyPlayState]
  · simp [applyPlayState]

/-- Claim C6 (amended): entering the Playing state clears `smoothedDiffMs`
and `lastJump` and resets `lastRateAdjust` to the current time, keeping the
rate boost; entering the Paused state leaves all drift bookkeeping
unchanged; a fresh asset load resets the rate boost to 0. -/
theorem C6_bookkeeping_reset (now : ℤ) (st : FollowerState) (p : PlayState)
    (m : ModelState) (synced : Bool) :
    (st.hasAudioView = true → st.waitingForSync = false → st.latestPlayState = some p →
      (p.isPlaying = true →
        (applyPlayState now st).1.corr =
          { smoothedDiff := none, lastJump := none, lastRateAdjust := some now,
            playbackBoost := st.corr.playbackBoost }) ∧
      (p.isPlaying = false → (applyPlayState now st).1.corr = st.corr)) ∧
    (assetsChanged m synced now st).1.corr.playbackBoost = 0 := by
  constructor
  · intro hav hws hlp
    constructor <;> intro hp <;> simp [applyPlayState, hav, hws, hlp, hp]
  · cases hs : synced <;> cases hmp : m.isPlaying <;>
      simp [assetsChanged, applyPlayState, hmp]

/-- Concrete instances of `C6_bookkeeping_reset`: entering Playing clears
the bookkeeping; entering Paused leaves it as it was; an asset load zeroes
the boost. -/
theorem C6_witness :
    (applyPlayState 50
        ⟨some ⟨true, some 3, none⟩, ⟨some 9, some 8, some 7, 2⟩, true, false⟩).1.corr =
      ⟨none, none, some 50, 2⟩ ∧
    (applyPlayState 50
        ⟨some ⟨false, none, some 1⟩, ⟨some 9, some 8, some 7, 2⟩, true, false⟩).1.corr =
      ⟨some 9, some 8, some 7, 2⟩ ∧
    (assetsChanged ⟨false, none, some 0, none, none⟩ true 50
        ⟨none, ⟨some 9, some 8, some 7, 2⟩, false, true⟩).1.corr.playbackBoost = 0 :=
  ⟨((C6_bookkeeping_reset 50
      ⟨some ⟨true, some 3, none⟩, ⟨some 9, some 8, some 7, 2⟩, true, false⟩
      ⟨true, some 3, none⟩ ⟨false, none, some 0, none, none⟩ true).1
      rfl rfl rfl).1 rfl,
   ((C6_bookkeeping_reset 50
      ⟨some ⟨false, none, some 1⟩, ⟨some 9, some 8, some 7, 2⟩, true, false⟩
      ⟨false, none, some 1⟩ ⟨false, none, some 0, none, none⟩ true).1
      rfl rfl rfl).2 rfl,
   (C6_bookkeeping_reset 50 ⟨none, ⟨some 9, some 8, some 7, 2⟩, false, true⟩
      ⟨false, none, some 1⟩ ⟨false, none, some 0, none, none⟩ true).2⟩

/-- Claim C7: the store's `setStartOffset` is a no-op while not playing (no
field changes, no event); while playing it updates only `startOffset` and
emits `start-offset-changed` with the new value. -/
theorem C7_setStartOffset_guarded (m : ModelState) (v : ℤ) :
    (m.isPlaying = false → setStartOffset m v = (m, [])) ∧
    (m.isPlaying = true →
      (setStartOffset m v).1.startOffset = some v ∧
      (setStartOffset m v).1.isPlaying = m.isPlaying ∧
      (setStartOffset m v).1.pausedTime = m.pausedTime ∧
      (setStartOffset m v).1.audioAsset = m.audioAsset ∧
      (setStartOffset m v).1.videoAsset = m.videoAsset ∧
      (setStartOffset m v).2 = [ModelEvent.startOffsetEvt v]) := by
  constructor <;> intro h <;> simp [setStartOffset, h]

/-- Concrete instances of `C7_setStartOffset_guarded` for a paused and a
playing store. -/
theorem C7_witness :
    setStartOffset ⟨false, none, some 2, none, none⟩ 44 =
      (⟨false, none, some 2, none, none⟩, []) ∧
    (setStartOffset ⟨true, some 1, none, none, none⟩ 44).1.startOffset = some 44 ∧
    (setStartOffset ⟨true, some 1, none, none, none⟩ 44).2 =
      [ModelEvent.startOffsetEvt 44] :=
  ⟨(C7_setStartOffset_guarded ⟨false, none, some 2, none, none⟩ 44).1 rfl,
   ((C7_setStartOffset_guarded ⟨true, some 1, none, none, none⟩ 44).2 rfl).1,
   ((C7_setStartOffset_guarded ⟨true, some 1, none, none, none⟩ 44).2 rfl).2.2.2.2.2⟩

/-- Claim C8: on entering the Playing state the follower issues
`play(expectedPosition + 0.1)` with
`expectedPosition = (now() - startOffset)/1000` (after first setting the
playback rate from the retained boost); in the scenario
`startOffset = now() - 5000` the `play()` argument is `5 + 0.1` seconds. -/
theorem C8_play_invocation (now so : ℤ) (pt : Option ℚ) (st : FollowerState)
    (hav : st.hasAudioView = true) (hws : st.waitingForSync = false)
    (hlp : st.latestPlayState = some ⟨true, some so, pt⟩) :
    (applyPlayState now st).2 =
      [AVAction.setRate (1 + (st.corr.playbackBoost : ℚ) / 100),
       AVAction.play (((now - so : ℤ) : ℚ) / 1000 + 1/10)] ∧
    (playStateChanged 1000000 ⟨none, ⟨none, none, none, 0⟩, true, false⟩
        ⟨true, some (1000000 - 5000), none⟩).2 =
      [AVAction.setRate 1, AVAction.play (5 + 1/10)] := by
  constructor
  · simp [applyPlayState, hav, hws, hlp, calculateAudioTime]
  · norm_num [playStateChanged, applyPlayState, calculateAudioTime]
    simp

/-- Concrete instance of `C8_play_invocation`: with `now = 1000` and
`startOffset = 400`, `play` is asked for `600/1000 + 0.1` seconds. -/
theorem C8_witness :
    (applyPlayState 1000
        ⟨some ⟨true, some 400, none⟩, ⟨none, none, none, 2⟩, true, false⟩).2 =
      [AVAction.setRate (1 + (2 : ℚ) / 100),
       AVAction.play (((1000 - 400 : ℤ) : ℚ) / 1000 + 1/10)] :=
  (C8_play_invocation 1000 400 none
    ⟨some ⟨true, some 400, none⟩, ⟨none, none, none, 2⟩, true, false⟩ rfl rfl rfl).1

end AudioSync
